import Mathlib

/-!
Verification development for the SolarPredictive repository.

The repository estimates the annual energy yield of a bifacial single-axis
tracked PV array (`basic_predictor.calculate_total_energy`), optimizes the
tracker axis tilt with Optuna (`optimizer.optimize_axistilt`), summarises a
layout survey (`pvtune.process_pvtune_output`) and adjusts row heights for
snow (`SnowHeight/monthly_snow.calculate_new_row_height`).

The shallow embedding below translates the date/loop arithmetic, profile
lookups, accumulation and selection logic of those functions into Lean.
Timestamps are modelled as ordinal numbers: day-of-year for the annual loop
(2021 is hard-coded in the source and is not a leap year, so Jan 1 = 1 and
Dec 31 = 365) and minutes for the intra-day 20-minute grid.  The external
physics library (pvlib/pvfactors) is abstracted as a function producing the
per-sample AC power, exactly as the spec's `PowerModel` black box.
Timezones are modelled by the absolute (UTC) minute of each local
midnight, which covers both fixed-offset zones and zones with
daylight-saving transitions such as US/Mountain, whose fall-back day is
25 hours long.
-/

namespace SolarPredictive

/-- Python error values raised by the embedded code paths
(`ValueError` in `calculate_total_energy`, `KeyError` from indexing a
missing DataFrame column). -/
inductive PyErr where
  | valueError : PyErr
  | keyError : PyErr
deriving DecidableEq

/-- Fuel-indexed stepped range.  `stepped_range_fuel fuel start endV step`
is the list of values visited by the Python pattern
`while start <= endV: ...; start += step`, which is also how
`pd.date_range(start, endV, freq=step)` enumerates timestamps
(both endpoints inclusive).  The fuel only bounds the recursion depth;
`stepped_range` below supplies enough fuel for the loop to run to
completion, and `stepped_range_cons` proves the defining while-loop
recurrence. -/
def stepped_range_fuel : Nat → Nat → Nat → Nat → List Nat
  | 0, _, _, _ => []
  | fuel + 1, start, endV, step =>
      if start ≤ endV then start :: stepped_range_fuel fuel (start + step) endV step
      else []

/-- The values visited by `while start <= endV: ...; start += step`
(for a positive step); used for both the annual 10-day loop and the
intra-day 20-minute `pd.date_range` grid. -/
def stepped_range (start endV step : Nat) : List Nat :=
  stepped_range_fuel (endV + 1 - start) start endV step

theorem stepped_range_fuel_congr (step : Nat) (hstep : 0 < step) :
    ∀ (fuel₁ fuel₂ start endV : Nat),
      endV + 1 - start ≤ fuel₁ → endV + 1 - start ≤ fuel₂ →
      stepped_range_fuel fuel₁ start endV step = stepped_range_fuel fuel₂ start endV step := by
  intro fuel₁
  induction fuel₁ with
  | zero =>
      intro fuel₂ start endV h₁ h₂
      have hlt : ¬ start ≤ endV := by omega
      cases fuel₂ with
      | zero => rfl
      | succ f => simp [stepped_range_fuel, hlt]
  | succ f ih =>
      intro fuel₂ start endV h₁ h₂
      cases fuel₂ with
      | zero =>
          have hlt : ¬ start ≤ endV := by omega
          simp [stepped_range_fuel, hlt]
      | succ g =>
          by_cases hle : start ≤ endV
          · simp only [stepped_range_fuel, hle, if_true]
            have := ih g (start + step) endV (by omega) (by omega)
            rw [this]
          · simp [stepped_range_fuel, hle]

/-- The while-loop recurrence: `stepped_range` satisfies the defining
equation of `while start <= endV`. -/
theorem stepped_range_cons (start endV step : Nat) (hstep : 0 < step) :
    stepped_range start endV step =
      if start ≤ endV then start :: stepped_range (start + step) endV step else [] := by
  by_cases hle : start ≤ endV
  · have hfe : endV + 1 - start = (endV - start) + 1 := by omega
    simp only [stepped_range, hfe, stepped_range_fuel, hle, if_true]
    have := stepped_range_fuel_congr step hstep (endV - start) (endV + 1 - (start + step))
      (start + step) endV (by omega) (by omega)
    rw [this]
  · have hfe : endV + 1 - start = 0 := by omega
    simp [stepped_range, hfe, stepped_range_fuel, hle]

/-- Translating the whole range by `a` translates every visited value. -/
theorem stepped_range_fuel_shift (step a : Nat) :
    ∀ (fuel start endV : Nat),
      stepped_range_fuel fuel (start + a) (endV + a) step =
        (stepped_range_fuel fuel start endV step).map (· + a) := by
  intro fuel
  induction fuel with
  | zero => intro start endV; rfl
  | succ f ih =>
      intro start endV
      by_cases hle : start ≤ endV
      · have hle' : start + a ≤ endV + a := by omega
        simp only [stepped_range_fuel, hle, hle', if_true, List.map_cons]
        have : start + a + step = start + step + a := by omega
        rw [this, ih]
      · have hle' : ¬ start + a ≤ endV + a := by omega
        simp [stepped_range_fuel, hle, hle']

theorem stepped_range_shift (start endV step a : Nat) :
    stepped_range (start + a) (endV + a) step =
      (stepped_range start endV step).map (· + a) := by
  have hfe : endV + a + 1 - (start + a) = endV + 1 - start := by omega
  simp only [stepped_range, hfe]
  exact stepped_range_fuel_shift step a _ start endV

/-! ## basic_predictor.py — `calculate_total_energy` -/

/-- Row-count selection at the head of `calculate_total_energy`:
`if ext_or_int == "Ext": n_pvrows = 2 elif ext_or_int == "Int": n_pvrows = 3
else: raise ValueError(...)`. -/
def n_pvrows_of (ext_or_int : String) : Except PyErr Nat :=
  if ext_or_int = "Ext" then Except.ok 2
  else if ext_or_int = "Int" then Except.ok 3
  else Except.error PyErr.valueError

/-- A MonthlyProfile: rows of `(month, value)` as produced by
`calculate_monthly_avg_albedo` / `calculate_new_row_height`. -/
abbrev MonthlyProfile := List (Nat × Rat)

/-- `get_albedo` closure in `calculate_total_energy`: filter the albedo
frame on `Month == month`; if the selection is nonempty take its first
`Surface Albedo` value, otherwise return the default `0.2`. -/
def get_albedo (albedo_data : MonthlyProfile) (month : Nat) : Rat :=
  match (albedo_data.filter (fun r => decide (r.1 = month))).head? with
  | some r => r.2
  | none => 1 / 5

/-- `get_adjusted_row_height` closure in `calculate_total_energy`: filter
the adjusted-heights frame on `month == month`; if nonempty take the first
`adjusted_row_height` value, otherwise return the nominal `height`. -/
def get_adjusted_row_height (adjusted_heights : MonthlyProfile) (height : Rat)
    (month : Nat) : Rat :=
  match (adjusted_heights.filter (fun r => decide (r.1 = month))).head? with
  | some r => r.2
  | none => height

/-- A timezone, as the per-day simulation observes it:
`utc_of_midnight d` is the absolute (UTC) minute at which the local
midnight opening day-of-year `d` occurs.  A fixed-offset zone shifts
every midnight by the same amount; a DST zone shifts midnights on the
two sides of a transition by different amounts, so the enclosed local
day is 23 or 25 hours long. -/
structure Timezone where
  utc_of_midnight : Nat → Nat

/-- A timezone with a constant UTC offset of `off` minutes (no
daylight-saving transitions): every local day spans 1440 absolute
minutes. -/
def fixed_offset_tz (off : Nat) : Timezone :=
  ⟨fun d => (d - 1) * 1440 + off⟩

/-- `tz="US/Mountain"` during 2021 (the spec's end-to-end scenario):
MST (UTC-7, written as +420 minutes from local to UTC) up to and
including the midnight of Mar 14 (day-of-year 73, the spring-forward
day), MDT (+360) from the midnight of Mar 15 through the midnight of
Nov 7 (day-of-year 311, the fall-back day), MST again from the midnight
of Nov 8.  Hence day 73 spans 1380 absolute minutes and day 311 spans
1500. -/
def us_mountain_2021 : Timezone :=
  ⟨fun d => (d - 1) * 1440 + (if d ≤ 73 then 420 else if d ≤ 311 then 360 else 420)⟩

/-- `pd.date_range(start_date, start_date + pd.Timedelta(days=1), freq="20min", tz=tz)`:
for a tick frequency pandas produces instants at fixed 20-minute
absolute intervals between the two localized endpoints, both endpoints
included (every day length here is divisible by 20, so the right
endpoint lands on the grid).  The grid of day `d` runs from the local
midnight opening day `d` to the local midnight opening day `d + 1`. -/
def day_times (tz : Timezone) (d : Nat) : List Nat :=
  stepped_range (tz.utc_of_midnight d) (tz.utc_of_midnight (d + 1)) 20

/-- Reduction of the AC power trace in the loop body:
`energy_kwh = ac_power.sum() / 3000`.  `acPower t` is the AC power the
external pvlib model chain reports at absolute minute `t` (the spec's
black-box `PowerModel`). -/
def day_energy (tz : Timezone) (acPower : Nat → Rat) (d : Nat) : Rat :=
  ((day_times tz d).map acPower).sum / 3000

/-- Start day of the simulation: `pd.Timestamp("2021-01-01")` = day-of-year 1. -/
def sim_start_day : Nat := 1

/-- End day of the simulation: `pd.Timestamp("2021-12-31")` = day-of-year 365
(2021 is not a leap year). -/
def sim_end_day : Nat := 365

/-- The start dates visited by the annual loop
`while start_date <= end_date: ...; start_date += pd.Timedelta(days=10)`,
as day-of-year ordinals. -/
def sample_start_days : List Nat :=
  stepped_range sim_start_day sim_end_day 10

/-- The accumulator of the annual loop: starting from
`total_energy_bi = 0; count = 0`, each iteration performs
`total_energy_bi += energy_kwh; count += 1`, where `dayEnergy d` is the
energy `energy_kwh` computed for the sampled day `d`.  `endDay` is
`sim_end_day` in the source; it is kept as a parameter so that the
scaling law can be stated for any number of sampled days. -/
def annual_fold (endDay : Nat) (dayEnergy : Nat → Rat) : Rat × Nat :=
  (stepped_range sim_start_day endDay 10).foldl
    (fun acc d => (acc.1 + dayEnergy d, acc.2 + 1)) (0, 0)

/-- The value returned after the loop:
`total_energy_bi * (365 / count)`. -/
def annual_estimate (endDay : Nat) (dayEnergy : Nat → Rat) : Rat :=
  let r := annual_fold endDay dayEnergy
  r.1 * (365 / (r.2 : Rat))

/-- `basic_predictor.calculate_total_energy`: validate `ext_or_int` into
`n_pvrows` (raising `ValueError` otherwise), then run the annual 10-day
sampling loop over year 2021 and scale by `365 / count`.
`dayEnergy n d` abstracts the per-day simulation (solar position,
clear-sky irradiance, `pvfactors_timeseries` called with `n_pvrows = n`,
model chain, and the `/ 3000` reduction) for sampled day `d`. -/
def calculate_total_energy (ext_or_int : String) (dayEnergy : Nat → Nat → Rat) :
    Except PyErr Rat :=
  (n_pvrows_of ext_or_int).map (fun n => annual_estimate sim_end_day (dayEnergy n))

/-- The concrete per-day simulation with the physics model abstracted:
the energy of day `d` (day-of-year, 1-based) is the summed AC power over
that day's 20-minute grid in the site's timezone, divided by 3000. -/
def estimator_day_energy (tz : Timezone) (acPower : Nat → Rat) (_n_pvrows d : Nat) : Rat :=
  day_energy tz acPower d

/-- Month lengths of the hard-coded simulation year 2021 (not a leap year). -/
def month_lengths_2021 : List Nat := [31, 28, 31, 30, 31, 30, 31, 31, 30, 31, 30, 31]

/-- Walk the month-length table to convert a 1-based day-of-year into a
`(month, day-of-month)` pair. -/
def month_day_go : List Nat → Nat → Nat → Nat × Nat
  | [], m, d => (m, d)
  | len :: rest, m, d => if d ≤ len then (m, d) else month_day_go rest (m + 1) (d - len)

/-- Calendar date (month, day) of a 1-based day-of-year in 2021. -/
def month_day_of_doy (doy : Nat) : Nat × Nat :=
  month_day_go month_lengths_2021 1 doy

/-! ## pvtune.py — `process_pvtune_output` -/

/-- One row of the `summary_df` built by `process_pvtune_output`
(grouped by rounded reveal height and Ext/Int class). -/
structure SummaryRow where
  max_reveal_height : Rat
  is_ext : Bool
  number_of_rows : Nat
  number_of_total_modules : Rat
deriving DecidableEq

/-- A numpy scalar that is either a finite number or non-finite
(`nan`/`inf`). -/
inductive NpVal where
  | finite : Rat → NpVal
  | nonFinite : NpVal
deriving DecidableEq

/-- Numpy true division of scalars: dividing by zero does not raise an
exception (unlike plain Python numbers); it emits a `RuntimeWarning` and
produces `nan`/`inf`.  The operands here are `pandas.Series.sum()`
results, which are numpy scalars. -/
def npDiv (a b : Rat) : NpVal :=
  if b = 0 then NpVal.nonFinite else NpVal.finite (a / b)

/-- `total_modules = summary_df["Number_of_Total_Modules"].sum()`. -/
def total_modules (summary_df : List SummaryRow) : Rat :=
  (summary_df.map (fun r => r.number_of_total_modules)).sum

/-- `summary_df["Weighted Height"].sum()` where
`Weighted Height = Max Reveal Height * Number_of_Total_Modules`. -/
def weighted_height_sum (summary_df : List SummaryRow) : Rat :=
  (summary_df.map (fun r => r.max_reveal_height * r.number_of_total_modules)).sum

/-- Final step of `process_pvtune_output`:
`weighted_average_reveal_height = summary_df["Weighted Height"].sum() / total_modules`,
with numpy division semantics. -/
def weighted_average_reveal_height (summary_df : List SummaryRow) : NpVal :=
  npDiv (weighted_height_sum summary_df) (total_modules summary_df)

/-! ## optimizer.py — `optimize_axistilt` -/

/-- The row count passed to `pvfactors_timeseries` inside the optimizer's
inner `calculate_total_energy`: the call site hard-codes `n_pvrows=3`
(there is no `ext_or_int` parameter anywhere in `optimizer.py`). -/
def optimizer_trial_n_pvrows : Nat := 3

/-- The annual estimate computed by the optimizer's inner
`calculate_total_energy(axis_tilt)`: the same 2021 10-day loop as
`basic_predictor`, with the physics model always invoked with
`n_pvrows = optimizer_trial_n_pvrows`. -/
def optimizer_annual_estimate (dayEnergy : Nat → Nat → Rat) : Rat :=
  annual_estimate sim_end_day (dayEnergy optimizer_trial_n_pvrows)

/-- `trial.suggest_float("axis_tilt", low, high)`: the sampler draws a
unit sample `u ∈ [0, 1]` from its pseudo-random stream and maps it into
`[low, high]`. -/
def suggest_float (low high u : Rat) : Rat :=
  low + u * (high - low)

/-- The sequence of `(axis_tilt, total_energy)` pairs recorded by the
`objective` closure over `n` Optuna trials: trial `i` suggests
`suggest_float 0 60 (us i)` (where `us` is the sampler's stream of unit
samples) and evaluates the objective on it. -/
def optuna_trials (obj : Rat → Rat) (us : Nat → Rat) (n : Nat) : List (Rat × Rat) :=
  (List.range n).map (fun i =>
    let tilt := suggest_float 0 60 (us i)
    (tilt, obj tilt))

/-- One comparison step of Python's `max(..., key=...)`: the current
best is replaced only when the new value is strictly greater. -/
def keep_max (b x : Rat × Rat) : Rat × Rat :=
  if b.2 < x.2 then x else b

/-- Optuna's best-trial selection for `direction="maximize"`:
`max(trials, key=lambda t: t.value)` — a left-to-right scan that replaces
the current best only on a strictly greater value, so the first maximal
trial is kept on ties.  `study.best_params` / `study.best_value` are the
components of this trial. -/
def best_trial (trials : List (Rat × Rat)) : Option (Rat × Rat) :=
  match trials with
  | [] => none
  | t :: rest => some (rest.foldl keep_max t)

/-- The sampler seed of `optuna.create_study(direction="maximize")` in
`optimize_axistilt`: no `sampler` (and hence no seed) argument is passed,
so the default TPE sampler is seeded from ambient global randomness. -/
def create_study_sampler_seed : Option Nat := none

/-- `optimizer.optimize_axistilt`, after loading the layout summary
`summary_df` from `process_pvtune_output`: run 20 Optuna trials of the
objective and return
`(study.best_params["axis_tilt"], study.best_value, summary_df)`.
`obj` abstracts the inner `calculate_total_energy`, and `us` is the
sampler's pseudo-random stream of unit samples (which the source does
not seed — see `create_study_sampler_seed`). -/
def optimize_axistilt (summary_df : List SummaryRow) (obj : Rat → Rat)
    (us : Nat → Rat) : Rat × Rat × List SummaryRow :=
  let trials := optuna_trials obj us 20
  match best_trial trials with
  | some b => (b.1, b.2, summary_df)
  | none => (0, 0, summary_df)

/-! ## SnowHeight/monthly_snow.py — `calculate_new_row_height` -/

/-- The daily weather data fetched from meteostat inside
`calculate_new_row_height`: the month of each daily record (derived from
the datetime index) and, when the station reports snowfall, the `snow`
column in millimetres with possible missing (`NaN`) entries.  `snow = none`
models a fetch result with no `snow` column at all. -/
structure DailyData where
  months : List Nat
  snow : Option (List (Option Rat))

/-- Result of `calculate_new_row_height`: either the computed
month/adjusted-row-height frame, or the fallback branch that prints
"No snow data found." and returns an empty frame. -/
inductive SnowResult where
  | table : List (Nat × Rat) → SnowResult
  | emptyFallback : SnowResult
deriving DecidableEq

/-- `data.groupby("month")["snow"].mean()` followed by
`/ 1000` (mm → m) and `adjusted_row_height = row_height - average_snowfall`:
group keys are the distinct months in ascending order (pandas `groupby`
sorts its keys). -/
def monthly_adjusted_heights (months : List Nat) (snow : List Rat)
    (row_height : Rat) : List (Nat × Rat) :=
  (List.insertionSort (· ≤ ·) months.dedup).map (fun m =>
    let vals := (months.zip snow).filterMap
      (fun p => if p.1 = m then some p.2 else none)
    (m, row_height - (vals.sum / (vals.length : Rat)) / 1000))

/-- `SnowHeight/monthly_snow.calculate_new_row_height`, after the
meteostat fetch (modelled by the `data` argument).  Faithful to the
source order: `data["snow"] = data["snow"].fillna(0)` runs first — so a
fetch result with no `snow` column raises `KeyError` right there — and
only then comes the guard `if "snow" in data.columns:`, whose else
branch prints and returns an empty frame. -/
def calculate_new_row_height (data : DailyData) (row_height : Rat) :
    Except PyErr SnowResult :=
  match data.snow with
  | none => Except.error PyErr.keyError
  | some snowCol =>
      let filled : List Rat := snowCol.map (fun o => o.getD 0)
      let updated : DailyData := { data with snow := some (filled.map some) }
      if updated.snow.isSome then
        Except.ok (SnowResult.table (monthly_adjusted_heights updated.months filled row_height))
      else
        Except.ok SnowResult.emptyFallback

/-! ## Helper lemmas -/

theorem loop_fold_eq (f : Nat → Rat) (l : List Nat) :
    ∀ init : Rat × Nat,
      l.foldl (fun acc d => (acc.1 + f d, acc.2 + 1)) init =
        (init.1 + (l.map f).sum, init.2 + l.length) := by
  induction l with
  | nil => intro init; simp
  | cons a rest ih =>
      intro init
      rw [List.foldl_cons, ih]
      simp only [List.map_cons, List.sum_cons, List.length_cons, Prod.mk.injEq]
      constructor
      · ring
      · omega

theorem annual_fold_fst (endDay : Nat) (f : Nat → Rat) :
    (annual_fold endDay f).1 = ((stepped_range sim_start_day endDay 10).map f).sum := by
  simp [annual_fold, loop_fold_eq]

theorem annual_fold_snd (endDay : Nat) (f : Nat → Rat) :
    (annual_fold endDay f).2 = (stepped_range sim_start_day endDay 10).length := by
  simp [annual_fold, loop_fold_eq]

theorem annual_estimate_eq (endDay : Nat) (f : Nat → Rat) :
    annual_estimate endDay f =
      ((stepped_range sim_start_day endDay 10).map f).sum *
        (365 / ((stepped_range sim_start_day endDay 10).length : Rat)) := by
  simp [annual_estimate, annual_fold_fst, annual_fold_snd]

theorem sample_days_ne_nil (endDay : Nat) (h : 1 ≤ endDay) :
    stepped_range sim_start_day endDay 10 ≠ [] := by
  rw [stepped_range_cons sim_start_day endDay 10 (by omega)]
  simp [sim_start_day, h]

/-- If every sampled day contributes the same energy `e`, the scaled
annual estimate is `e * 365` for any loop end (hence any sample count). -/
theorem annual_estimate_const (endDay : Nat) (e : Rat) (h : 1 ≤ endDay) :
    annual_estimate endDay (fun _ => e) = e * 365 := by
  rw [annual_estimate_eq]
  have hne := sample_days_ne_nil endDay h
  set l := stepped_range sim_start_day endDay 10 with hl
  have hx : (l.map fun _ => e).sum = (l.length : Rat) * e := by
    rw [List.map_const', List.sum_replicate, nsmul_eq_mul]
  rw [hx]
  have hlen : (l.length : Rat) ≠ 0 := by
    have : l.length ≠ 0 := by
      intro h0
      exact hne (List.length_eq_zero.mp h0)
    exact_mod_cast this
  field_simp
  ring

/-- Pointwise-equal day energies give equal annual estimates. -/
theorem annual_estimate_congr (endDay : Nat) (f g : Nat → Rat)
    (h : ∀ d, f d = g d) : annual_estimate endDay f = annual_estimate endDay g := by
  have : f = g := funext h
  rw [this]

/-- Translating a stepped range leaves its length unchanged. -/
theorem stepped_range_length_add (a len step : Nat) :
    (stepped_range a (a + len) step).length = (stepped_range 0 len step).length := by
  have h1 : stepped_range (0 + a) (len + a) step = (stepped_range 0 len step).map (· + a) :=
    stepped_range_shift 0 len step a
  have h2 : (0 + a) = a := by omega
  have h3 : len + a = a + len := by omega
  rw [h2, h3] at h1
  rw [h1, List.length_map]

/-- Under a fixed-offset timezone every day's 20-minute grid holds 73
samples (both endpoints of `pd.date_range` included). -/
theorem day_times_length_fixed (off d : Nat) (hd : 1 ≤ d) :
    (day_times (fixed_offset_tz off) d).length = 73 := by
  have hu : (fixed_offset_tz off).utc_of_midnight (d + 1) =
      (fixed_offset_tz off).utc_of_midnight d + 1440 := by
    simp only [fixed_offset_tz]
    omega
  rw [day_times, hu, stepped_range_length_add]
  decide

/-- A constant power trace of `p` yields day energy
`(sample count) * p / 3000`. -/
theorem day_energy_const (tz : Timezone) (p : Rat) (d : Nat) :
    day_energy tz (fun _ => p) d = ((day_times tz d).length : Rat) * p / 3000 := by
  unfold day_energy
  have hx : ((day_times tz d).map fun _ => p).sum = ((day_times tz d).length : Rat) * p := by
    rw [List.map_const', List.sum_replicate, nsmul_eq_mul]
  rw [hx]

/-- Pulling a natural-number count out of a rational sum of per-day
energies of the form `count * p / 3000`. -/
theorem sum_map_len_div (g : Nat → Nat) (p : Rat) (l : List Nat) :
    (l.map (fun d => ((g d : Nat) : Rat) * p / 3000)).sum =
      (((l.map g).sum : Nat) : Rat) * p / 3000 := by
  induction l with
  | nil => simp
  | cons a rest ih =>
      simp only [List.map_cons, List.sum_cons, ih]
      push_cast
      ring

/-- The annual estimate for a constant 1-per-sample power trace is the
total sample count over the 37 sampled days, divided by 3000 and scaled
by 365/37. -/
theorem estimator_const_power (tz : Timezone) :
    calculate_total_energy "Ext" (estimator_day_energy tz (fun _ => 1)) =
      Except.ok
        (((sample_start_days.map (fun d => (day_times tz d).length)).sum : Rat)
          * 1 / 3000 * (365 / 37)) := by
  have hinner : annual_estimate sim_end_day (estimator_day_energy tz (fun _ => 1) 2) =
      ((sample_start_days.map (fun d => (day_times tz d).length)).sum : Rat)
        * 1 / 3000 * (365 / 37) := by
    rw [annual_estimate_eq]
    have hmap : (stepped_range sim_start_day sim_end_day 10).map
          (estimator_day_energy tz (fun _ => 1) 2) =
        (stepped_range sim_start_day sim_end_day 10).map
          (fun d => ((day_times tz d).length : Rat) * 1 / 3000) := by
      apply List.map_congr_left
      intro d _
      exact day_energy_const tz 1 d
    rw [hmap, sum_map_len_div]
    have hlen : (stepped_range sim_start_day sim_end_day 10).length = 37 := by decide
    rw [hlen]
    norm_num [sample_start_days]
  show (n_pvrows_of "Ext").map
      (fun n => annual_estimate sim_end_day (estimator_day_energy tz (fun _ => 1) n)) = _
  have h2 : n_pvrows_of "Ext" = Except.ok 2 := by simp [n_pvrows_of]
  rw [h2]
  show Except.ok (annual_estimate sim_end_day (estimator_day_energy tz (fun _ => 1) 2)) = _
  rw [hinner]

theorem keep_max_left_le (b x : Rat × Rat) : b.2 ≤ (keep_max b x).2 := by
  by_cases h : b.2 < x.2
  · simp [keep_max, h, le_of_lt h]
  · simp [keep_max, h]

theorem keep_max_right_le (b x : Rat × Rat) : x.2 ≤ (keep_max b x).2 := by
  by_cases h : b.2 < x.2
  · simp [keep_max, h]
  · simp [keep_max, h, le_of_not_lt h]

theorem foldl_keep_max_start_le (rest : List (Rat × Rat)) :
    ∀ t : Rat × Rat, t.2 ≤ (rest.foldl keep_max t).2 := by
  induction rest with
  | nil => intro t; simp
  | cons x rs ih =>
      intro t
      rw [List.foldl_cons]
      exact le_trans (keep_max_left_le t x) (ih (keep_max t x))

theorem foldl_keep_max_mem (rest : List (Rat × Rat)) :
    ∀ t : Rat × Rat, rest.foldl keep_max t ∈ t :: rest := by
  induction rest with
  | nil => intro t; simp
  | cons x rs ih =>
      intro t
      rw [List.foldl_cons]
      rcases List.mem_cons.mp (ih (keep_max t x)) with heq | hmem
      · rw [heq]
        by_cases h : t.2 < x.2
        · simp [keep_max, h]
        · simp [keep_max, h]
      · exact List.mem_cons_of_mem _ (List.mem_cons_of_mem _ hmem)

theorem foldl_keep_max_le (rest : List (Rat × Rat)) :
    ∀ t : Rat × Rat, ∀ y ∈ rest, y.2 ≤ (rest.foldl keep_max t).2 := by
  induction rest with
  | nil => intro t y hy; cases hy
  | cons x rs ih =>
      intro t y hy
      rw [List.foldl_cons]
      rcases List.mem_cons.mp hy with heq | hmem
      · rw [heq]
        exact le_trans (keep_max_right_le t x) (foldl_keep_max_start_le rs (keep_max t x))
      · exact ih (keep_max t x) y hmem

/-- The fold keeps the first maximal element: scanning the trial list for
the first value equal to the fold's maximum finds exactly the fold's
result. -/
theorem foldl_keep_max_first (rest : List (Rat × Rat)) :
    ∀ t : Rat × Rat,
      (t :: rest).find? (fun z => decide (z.2 = (rest.foldl keep_max t).2)) =
        some (rest.foldl keep_max t) := by
  induction rest with
  | nil =>
      intro t
      simp [List.find?_cons]
  | cons x rs ih =>
      intro t
      rw [List.foldl_cons]
      by_cases hc : t.2 < x.2
      · have hstep : keep_max t x = x := if_pos hc
        rw [hstep]
        have htr : t.2 < (rs.foldl keep_max x).2 :=
          lt_of_lt_of_le hc (foldl_keep_max_start_le rs x)
        have hnt : t.2 ≠ (rs.foldl keep_max x).2 := ne_of_lt htr
        rw [List.find?_cons]
        simp only [hnt, decide_False]
        exact ih x
      · have hstep : keep_max t x = t := if_neg hc
        rw [hstep]
        have ihx := ih t
        by_cases hpt : t.2 = (rs.foldl keep_max t).2
        · have h1 : (t :: rs).find? (fun z => decide (z.2 = (rs.foldl keep_max t).2)) = some t := by
            rw [List.find?_cons]
            simp [hpt]
          have h2 : t = rs.foldl keep_max t := Option.some.inj (h1.symm.trans ihx)
          rw [← h2]
          rw [List.find?_cons]
          simp
        · have htlt : t.2 < (rs.foldl keep_max t).2 :=
            lt_of_le_of_ne (foldl_keep_max_start_le rs t) hpt
          have hxlt : x.2 < (rs.foldl keep_max t).2 :=
            lt_of_le_of_lt (le_of_not_lt hc) htlt
          have hnt : t.2 ≠ (rs.foldl keep_max t).2 := ne_of_lt htlt
          have hnx : x.2 ≠ (rs.foldl keep_max t).2 := ne_of_lt hxlt
          rw [List.find?_cons]
          simp only [hnt, decide_False]
          rw [List.find?_cons]
          simp only [hnx, decide_False]
          rw [List.find?_cons] at ihx
          simp only [hnt, decide_False] at ihx
          exact ihx

/-- Specification of Optuna's best-trial selection on a nonempty trial
list: the selected trial is in the list, its value is maximal, and it is
the first trial attaining that maximum. -/
theorem best_trial_spec (trials : List (Rat × Rat)) (hne : trials ≠ []) :
    ∃ b, best_trial trials = some b ∧ b ∈ trials ∧ (∀ y ∈ trials, y.2 ≤ b.2) ∧
      trials.find? (fun z => decide (z.2 = b.2)) = some b := by
  obtain ⟨t, rest, rfl⟩ := List.exists_cons_of_ne_nil hne
  refine ⟨rest.foldl keep_max t, rfl, foldl_keep_max_mem rest t, ?_, foldl_keep_max_first rest t⟩
  intro y hy
  rcases List.mem_cons.mp hy with heq | hmem
  · rw [heq]; exact foldl_keep_max_start_le rest t
  · exact foldl_keep_max_le rest t y hmem

theorem foldl_keep_max_replicate (n : Nat) (t : Rat × Rat) :
    (List.replicate n t).foldl keep_max t = t := by
  induction n with
  | zero => rfl
  | succ m ih =>
      rw [List.replicate_succ, List.foldl_cons]
      have hk : keep_max t t = t := by
        simp [keep_max]
      rw [hk, ih]

/-- With a constant sampler stream every trial is the same pair. -/
theorem optuna_trials_const (obj : Rat → Rat) (c : Rat) :
    optuna_trials obj (fun _ => c) 20 =
      List.replicate 20 (suggest_float 0 60 c, obj (suggest_float 0 60 c)) := by
  have h1 : optuna_trials obj (fun _ => c) 20 =
      (List.range 20).map (fun _ => (suggest_float 0 60 c, obj (suggest_float 0 60 c))) := by
    unfold optuna_trials
    apply List.map_congr_left
    intro i _
    rfl
  rw [h1, List.map_const', List.length_range]

/-- With a constant sampler stream the optimizer returns the (unique)
trial produced from that stream. -/
theorem optimize_axistilt_const (summary_df : List SummaryRow) (obj : Rat → Rat) (c : Rat) :
    optimize_axistilt summary_df obj (fun _ => c) =
      (suggest_float 0 60 c, obj (suggest_float 0 60 c), summary_df) := by
  have hbt : best_trial (optuna_trials obj (fun _ => c) 20) =
      some (suggest_float 0 60 c, obj (suggest_float 0 60 c)) := by
    rw [optuna_trials_const]
    show some ((List.replicate 19 _).foldl keep_max _) = _
    rw [foldl_keep_max_replicate]
  show (match best_trial (optuna_trials obj (fun _ => c) 20) with
        | some x => (x.1, x.2, summary_df)
        | none => ((0 : Rat), (0 : Rat), summary_df)) =
      (suggest_float 0 60 c, obj (suggest_float 0 60 c), summary_df)
  rw [hbt]

/-! ## Claims -/

/-- C1: for the hard-coded simulation year 2021, the annual loop of
`calculate_total_energy` starts at January 1, advances by 10 calendar
days while `start_date <= end_date` (December 31), and therefore visits
exactly the 37 start dates Jan 1, Jan 11, …, Dec 27; every run performs
exactly 37 per-day simulations and the final estimate is the accumulated
energy scaled by `365 / 37`. -/
theorem C1_annual_loop_cadence :
    sample_start_days = (List.range 37).map (fun k => 1 + 10 * k)
    ∧ sample_start_days.length = 37
    ∧ (sample_start_days.map month_day_of_doy).head? = some (1, 1)
    ∧ (sample_start_days.map month_day_of_doy).getLast? = some (12, 27)
    ∧ (∀ f : Nat → Rat, (annual_fold sim_end_day f).2 = 37)
    ∧ (∀ dayEnergy : Nat → Nat → Rat,
        calculate_total_energy "Ext" dayEnergy =
          Except.ok (((sample_start_days.map (dayEnergy 2)).sum) * (365 / 37))) := by
  refine ⟨by decide, by decide, by decide, by decide, ?_, ?_⟩
  · intro f
    rw [annual_fold_snd]
    decide
  · intro dayEnergy
    show (n_pvrows_of "Ext").map (fun n => annual_estimate sim_end_day (dayEnergy n)) = _
    have h2 : n_pvrows_of "Ext" = Except.ok 2 := by simp [n_pvrows_of]
    rw [h2]
    show Except.ok (annual_estimate sim_end_day (dayEnergy 2)) = _
    rw [annual_estimate_eq]
    have hlen : (stepped_range sim_start_day sim_end_day 10).length = 37 := by decide
    rw [hlen]
    norm_num [sample_start_days]

/-- C2: the annual estimate is the sum of the sampled-day energies times
`365 / (number of sampled days)` (the loop accumulator equals that sum
and the loop counter that sample count); in particular a constant
per-day energy `e` gives an estimate of `e * 365` whatever the number of
sampled days (here varied through the loop's end date). -/
theorem C2_estimate_scaling (endDay : Nat) (f : Nat → Rat) (e : Rat) (h : 1 ≤ endDay) :
    (annual_fold endDay f).1 = ((stepped_range sim_start_day endDay 10).map f).sum
    ∧ (annual_fold endDay f).2 = (stepped_range sim_start_day endDay 10).length
    ∧ annual_estimate endDay f =
        ((stepped_range sim_start_day endDay 10).map f).sum *
          (365 / ((stepped_range sim_start_day endDay 10).length : Rat))
    ∧ annual_estimate endDay (fun _ => e) = e * 365 :=
  ⟨annual_fold_fst endDay f, annual_fold_snd endDay f, annual_estimate_eq endDay f,
    annual_estimate_const endDay e h⟩

theorem C2_estimate_scaling_witness :
    (annual_fold 365 (fun d => (d : Rat))).1 =
        ((stepped_range sim_start_day 365 10).map (fun d => (d : Rat))).sum
    ∧ (annual_fold 365 (fun d => (d : Rat))).2 = (stepped_range sim_start_day 365 10).length
    ∧ annual_estimate 365 (fun d => (d : Rat)) =
        ((stepped_range sim_start_day 365 10).map (fun d => (d : Rat))).sum *
          (365 / ((stepped_range sim_start_day 365 10).length : Rat))
    ∧ annual_estimate 365 (fun _ => (2 : Rat)) = 2 * 365 :=
  C2_estimate_scaling 365 (fun d => (d : Rat)) 2 (by norm_num)

/-- C3 counterexample: the intra-day grid built by
`pd.date_range(start, start + 1 day, freq="20min", tz=tz)` never holds
the claimed 72 samples: both endpoints are included, so a fixed-offset
day has 73 samples, and under the DST timezone of the spec's scenario
(`US/Mountain`) the sampled day Nov 7 2021 — day-of-year 311, the
25-hour fall-back day — has 76. -/
theorem C3_counterexample :
    (day_times (fixed_offset_tz 0) 1).length = 73
    ∧ (day_times us_mountain_2021 311).length = 76
    ∧ (day_times (fixed_offset_tz 0) 1).length ≠ 72
    ∧ (day_times us_mountain_2021 311).length ≠ 72 := by
  exact ⟨by decide, by decide, by decide, by decide⟩

/-- C3 amended: the intra-day 20-minute grid includes both endpoints,
so under a fixed-offset timezone every sampled day has 73 power
samples, while under `US/Mountain` the sampled fall-back day Nov 7 2021
(day-of-year 311) has 76; the day's energy is the summed AC trace
divided by 3000; and with a stub power model returning a constant 1 kW
on every sample the annual estimate is `(73/3000) * 365 = 5329/600 ≈
8.88` kWh for a fixed-offset timezone and `(36*73+76)/3000 * 365/37 =
24674/2775 ≈ 8.89` kWh for US/Mountain. -/
theorem C3_day_grid_constant_power :
    (∀ off d, 1 ≤ d → (day_times (fixed_offset_tz off) d).length = 73)
    ∧ (day_times us_mountain_2021 311).length = 76
    ∧ (∀ (tz : Timezone) (acPower : Nat → Rat) (d : Nat),
        day_energy tz acPower d = ((day_times tz d).map acPower).sum / 3000)
    ∧ calculate_total_energy "Ext" (estimator_day_energy (fixed_offset_tz 0) (fun _ => 1)) =
        Except.ok (5329 / 600)
    ∧ calculate_total_energy "Ext" (estimator_day_energy us_mountain_2021 (fun _ => 1)) =
        Except.ok (24674 / 2775) := by
  refine ⟨day_times_length_fixed, by decide, fun _ _ _ => rfl, ?_, ?_⟩
  · rw [estimator_const_power (fixed_offset_tz 0)]
    have hsum : (sample_start_days.map
        (fun d => (day_times (fixed_offset_tz 0) d).length)).sum = 2701 := by decide
    rw [hsum]
    norm_num
  · rw [estimator_const_power us_mountain_2021]
    have hsum : (sample_start_days.map
        (fun d => (day_times us_mountain_2021 d).length)).sum = 2704 := by decide
    rw [hsum]
    norm_num

theorem C3_day_grid_constant_power_witness :
    (day_times (fixed_offset_tz 0) 5).length = 73
    ∧ calculate_total_energy "Ext" (estimator_day_energy us_mountain_2021 (fun _ => 1)) =
        Except.ok (24674 / 2775) :=
  ⟨C3_day_grid_constant_power.1 0 5 (by norm_num), C3_day_grid_constant_power.2.2.2.2⟩

/-- C4 counterexample: the tilt optimizer's per-trial estimator always
invokes the irradiance model with `n_pvrows = 3` (the call site
hard-codes it; `optimizer.py` has no array-class input), so the claimed
`External ↦ 2` mapping does not hold in the optimizer's evaluations: a
day simulation reporting the row count it was given as its energy shows
every trial runs with 3 rows. -/
theorem C4_counterexample :
    optimizer_trial_n_pvrows = 3 ∧ optimizer_trial_n_pvrows ≠ 2
    ∧ optimizer_annual_estimate (fun n _ => (n : Rat)) = 3 * 365 := by
  refine ⟨rfl, by decide, ?_⟩
  have h := annual_estimate_const sim_end_day ((3 : Nat) : Rat) (by norm_num [sim_end_day])
  calc optimizer_annual_estimate (fun n _ => (n : Rat))
      = annual_estimate sim_end_day (fun _ => ((3 : Nat) : Rat)) := rfl
    _ = ((3 : Nat) : Rat) * 365 := h
    _ = 3 * 365 := by norm_num

/-- C4 amended: in the standalone estimator, array class `Ext` maps to
`n_pvrows = 2` and `Int` to `n_pvrows = 3`, and any other value raises a
`ValueError` before any simulation work runs (the result is an error
independent of the per-day simulation); the tilt optimizer's per-trial
evaluations, however, always use `n_pvrows = 3` regardless of array
class. -/
theorem C4_array_class_mapping :
    n_pvrows_of "Ext" = Except.ok 2
    ∧ n_pvrows_of "Int" = Except.ok 3
    ∧ (∀ s, s ≠ "Ext" → s ≠ "Int" →
        ∀ f g : Nat → Nat → Rat,
          calculate_total_energy s f = Except.error PyErr.valueError
          ∧ calculate_total_energy s f = calculate_total_energy s g)
    ∧ optimizer_trial_n_pvrows = 3 := by
  refine ⟨by simp [n_pvrows_of], by simp [n_pvrows_of], ?_, rfl⟩
  intro s hs1 hs2 f g
  constructor
  · simp [calculate_total_energy, n_pvrows_of, hs1, hs2, Except.map]
  · simp [calculate_total_energy, n_pvrows_of, hs1, hs2, Except.map]

theorem C4_array_class_mapping_witness :
    calculate_total_energy "Foo" (fun _ _ => 0) = Except.error PyErr.valueError
    ∧ calculate_total_energy "Foo" (fun _ _ => 0) =
        calculate_total_energy "Foo" (fun _ _ => 1) :=
  C4_array_class_mapping.2.2.1 "Foo" (by decide) (by decide) (fun _ _ => 0) (fun _ _ => 1)

/-- C5 counterexample: the third value returned by `optimize_axistilt`
is `summary_df`, the layout summary from `process_pvtune_output` — not
the trial history: two runs whose trial histories differ return
identical third components. -/
theorem C5_counterexample :
    (optimize_axistilt [] (fun _ => 1) (fun _ => 0)).2.2 =
        (optimize_axistilt [] (fun _ => 2) (fun _ => 0)).2.2
    ∧ optuna_trials (fun _ => 1) (fun _ => 0) 20 ≠ optuna_trials (fun _ => 2) (fun _ => 0) 20 := by
  refine ⟨rfl, fun hEq => ?_⟩
  rw [optuna_trials_const, optuna_trials_const] at hEq
  have hrep : ∀ k : Rat × Rat, List.replicate 20 k = k :: List.replicate 19 k := fun _ => rfl
  rw [hrep, hrep] at hEq
  simp only [List.cons.injEq, Prod.mk.injEq] at hEq
  have h2 : (1 : Rat) = 2 := hEq.1.2
  norm_num at h2

/-- C5 amended: after the fixed 20-trial budget, `optimize_axistilt`
returns a maximized energy equal to the maximum energy over all
recorded trials and a best tilt that is the tilt of the first trial
attaining that maximum; its third result however is the layout summary
table, not the trial history. -/
theorem C5_optimizer_result (summary_df : List SummaryRow) (obj : Rat → Rat)
    (us : Nat → Rat) :
    (optuna_trials obj us 20).length = 20
    ∧ (∀ y ∈ optuna_trials obj us 20, y.2 ≤ (optimize_axistilt summary_df obj us).2.1)
    ∧ (optuna_trials obj us 20).find?
        (fun z => decide (z.2 = (optimize_axistilt summary_df obj us).2.1)) =
        some ((optimize_axistilt summary_df obj us).1, (optimize_axistilt summary_df obj us).2.1)
    ∧ (optimize_axistilt summary_df obj us).2.2 = summary_df := by
  have hne : optuna_trials obj us 20 ≠ [] := by
    intro hnil
    have : (optuna_trials obj us 20).length = 0 := by rw [hnil]; rfl
    simp [optuna_trials] at this
  obtain ⟨b, hb, _hmem, hle, hfirst⟩ := best_trial_spec _ hne
  have hopt : optimize_axistilt summary_df obj us = (b.1, b.2, summary_df) := by
    show (match best_trial (optuna_trials obj us 20) with
          | some x => (x.1, x.2, summary_df)
          | none => ((0 : Rat), (0 : Rat), summary_df)) = (b.1, b.2, summary_df)
    rw [hb]
  refine ⟨by simp [optuna_trials], ?_, ?_, by rw [hopt]⟩
  · intro y hy
    rw [hopt]
    exact hle y hy
  · rw [hopt]
    simpa using hfirst

theorem C5_optimizer_result_witness :
    (suggest_float 0 60 (1 / 2), suggest_float 0 60 (1 / 2)).2 ≤
        (optimize_axistilt [] (fun t => t) (fun _ => (1 : Rat) / 2)).2.1
    ∧ (optimize_axistilt [] (fun t => t) (fun _ => (1 : Rat) / 2)).2.2 = [] :=
  ⟨(C5_optimizer_result [] (fun t => t) (fun _ => (1 : Rat) / 2)).2.1
      (suggest_float 0 60 (1 / 2), suggest_float 0 60 (1 / 2))
      (List.mem_map_of_mem _ (by decide : (0 : Nat) ∈ List.range 20)),
   (C5_optimizer_result [] (fun t => t) (fun _ => (1 : Rat) / 2)).2.2.2⟩

/-- C6: every axis-tilt value proposed and evaluated by the optimizer
across its trials lies in the closed interval [0, 60]
(`trial.suggest_float("axis_tilt", 0, 60)` maps the sampler's unit
sample into that interval). -/
theorem C6_tilt_bounds (obj : Rat → Rat) (us : Nat → Rat)
    (hus : ∀ i, 0 ≤ us i ∧ us i ≤ 1) :
    ∀ x ∈ optuna_trials obj us 20, 0 ≤ x.1 ∧ x.1 ≤ 60 := by
  intro x hx
  simp only [optuna_trials, List.mem_map, List.mem_range] at hx
  obtain ⟨i, _, rfl⟩ := hx
  have h := hus i
  refine ⟨?_, ?_⟩
  · show (0 : Rat) ≤ 0 + us i * (60 - 0)
    nlinarith [h.1]
  · show (0 : Rat) + us i * (60 - 0) ≤ 60
    nlinarith [h.1, h.2]

theorem C6_tilt_bounds_witness :
    0 ≤ (suggest_float 0 60 (1 / 2), suggest_float 0 60 (1 / 2)).1
    ∧ (suggest_float 0 60 (1 / 2), suggest_float 0 60 (1 / 2)).1 ≤ 60 :=
  C6_tilt_bounds (fun t => t) (fun _ => (1 : Rat) / 2)
    (fun _ => ⟨by norm_num, by norm_num⟩)
    (suggest_float 0 60 (1 / 2), suggest_float 0 60 (1 / 2))
    (List.mem_map_of_mem _ (by decide : (0 : Nat) ∈ List.range 20))

/-- C7: a month absent from the albedo MonthlyProfile resolves to
exactly the default albedo 0.2, and a start-date month absent from the
row-height MonthlyProfile resolves to exactly the nominal reveal
height; both lookups are total (an absent month is never an error). -/
theorem C7_profile_fallbacks (albedo heights : MonthlyProfile) (height : Rat)
    (m1 m2 : Nat) (h1 : ∀ r ∈ albedo, r.1 ≠ m1) (h2 : ∀ r ∈ heights, r.1 ≠ m2) :
    get_albedo albedo m1 = 1 / 5
    ∧ get_adjusted_row_height heights height m2 = height := by
  constructor
  · unfold get_albedo
    have hf : albedo.filter (fun r => decide (r.1 = m1)) = [] := by
      rw [List.filter_eq_nil_iff]
      intro a ha
      simp [h1 a ha]
    rw [hf]
    rfl
  · unfold get_adjusted_row_height
    have hf : heights.filter (fun r => decide (r.1 = m2)) = [] := by
      rw [List.filter_eq_nil_iff]
      intro a ha
      simp [h2 a ha]
    rw [hf]
    rfl

theorem C7_profile_fallbacks_witness :
    get_albedo [(1, 3 / 10)] 2 = 1 / 5
    ∧ get_adjusted_row_height [(1, 5)] 7 3 = 7 :=
  C7_profile_fallbacks [(1, 3 / 10)] [(1, 5)] 7 2 3 (by decide) (by decide)

/-- C8 counterexample: `optimize_axistilt` creates its study without a
sampler seed (`optuna.create_study(direction="maximize")`), so the
proposal stream is ambient global randomness rather than a function of
the inputs; two runs on identical inputs whose ambient streams differ
propose different tilt sequences and return different results. -/
theorem C8_counterexample :
    create_study_sampler_seed = none
    ∧ optimize_axistilt [] (fun t => t) (fun _ => 0) ≠
        optimize_axistilt [] (fun t => t) (fun _ => 1) := by
  refine ⟨rfl, fun hEq => ?_⟩
  rw [optimize_axistilt_const, optimize_axistilt_const] at hEq
  have h1 := congrArg (fun p : Rat × Rat × List SummaryRow => p.1) hEq
  simp only [suggest_float] at h1
  norm_num at h1

/-- C8 amended: the search is a deterministic function of the sampler's
proposal stream — two runs whose streams agree on the 20 consumed unit
samples record identical trial sequences and return identical results —
but the source fixes no seed, so identical streams across runs are not
guaranteed by the code. -/
theorem C8_determinism_given_stream (summary_df : List SummaryRow) (obj : Rat → Rat)
    (us1 us2 : Nat → Rat) (h : ∀ i < 20, us1 i = us2 i) :
    optuna_trials obj us1 20 = optuna_trials obj us2 20
    ∧ optimize_axistilt summary_df obj us1 = optimize_axistilt summary_df obj us2 := by
  have htr : optuna_trials obj us1 20 = optuna_trials obj us2 20 := by
    unfold optuna_trials
    apply List.map_congr_left
    intro i hi
    rw [h i (List.mem_range.mp hi)]
  refine ⟨htr, ?_⟩
  unfold optimize_axistilt
  rw [htr]

theorem C8_determinism_given_stream_witness :
    optuna_trials (fun t => t) (fun _ => (0 : Rat)) 20 =
        optuna_trials (fun t => t) (fun i => if i < 20 then 0 else 1) 20
    ∧ optimize_axistilt [] (fun t => t) (fun _ => (0 : Rat)) =
        optimize_axistilt [] (fun t => t) (fun i => if i < 20 then 0 else 1) :=
  C8_determinism_given_stream [] (fun t => t) (fun _ => (0 : Rat))
    (fun i => if i < 20 then 0 else 1) (fun i hi => by simp [hi])

/-- C9 counterexample: a layout summary whose buckets hold zero total
modules makes the weighted-average division a numpy zero division,
which silently produces a non-finite value (`nan`) instead of raising a
fatal error. -/
theorem C9_counterexample :
    weighted_average_reveal_height [⟨10, true, 1, 0⟩] = NpVal.nonFinite := by
  norm_num [weighted_average_reveal_height, npDiv, total_modules, weighted_height_sum]

/-- C9 amended: when the computed total module count is zero the
weighted-average reveal height is the non-finite numpy quotient,
propagated silently to the caller (no error is raised); when it is
nonzero the result is the finite weighted average. -/
theorem C9_zero_modules_nan (summary_df : List SummaryRow) :
    (total_modules summary_df = 0 →
      weighted_average_reveal_height summary_df = NpVal.nonFinite)
    ∧ (total_modules summary_df ≠ 0 →
      weighted_average_reveal_height summary_df =
        NpVal.finite (weighted_height_sum summary_df / total_modules summary_df)) := by
  constructor
  · intro h
    simp [weighted_average_reveal_height, npDiv, h]
  · intro h
    simp [weighted_average_reveal_height, npDiv, h]

theorem C9_zero_modules_nan_witness :
    weighted_average_reveal_height [⟨10, true, 2, 0⟩] = NpVal.nonFinite
    ∧ weighted_average_reveal_height [⟨10, true, 2, 4⟩] = NpVal.finite 10 := by
  refine ⟨(C9_zero_modules_nan [⟨10, true, 2, 0⟩]).1 (by norm_num [total_modules]), ?_⟩
  have h := (C9_zero_modules_nan [⟨10, true, 2, 4⟩]).2 (by norm_num [total_modules])
  rw [h]
  norm_num [weighted_height_sum, total_modules]

/-- C10: `calculate_new_row_height` indexes the `snow` column for
`fillna` before the guard checking that a `snow` column exists, so every
fetch result lacking a `snow` column raises `KeyError`, and the fallback
branch that prints and returns an empty frame is unreachable. -/
theorem C10_snow_keyerror (data : DailyData) (row_height : Rat) :
    (data.snow = none →
      calculate_new_row_height data row_height = Except.error PyErr.keyError)
    ∧ (∀ r, calculate_new_row_height data row_height = Except.ok r →
        r ≠ SnowResult.emptyFallback) := by
  constructor
  · intro h
    unfold calculate_new_row_height
    rw [h]
  · intro r hr
    unfold calculate_new_row_height at hr
    cases hsnow : data.snow with
    | none =>
        rw [hsnow] at hr
        cases hr
    | some col =>
        rw [hsnow] at hr
        simp only [Option.isSome_some, if_true, Except.ok.injEq] at hr
        rw [← hr]
        exact fun hc => SnowResult.noConfusion hc

theorem C10_snow_keyerror_witness :
    calculate_new_row_height ⟨[1], none⟩ 5 = Except.error PyErr.keyError
    ∧ SnowResult.table [(1, 5)] ≠ SnowResult.emptyFallback := by
  have hcalc : calculate_new_row_height ⟨[1], some [none]⟩ 5 =
      Except.ok (SnowResult.table [(1, 5)]) := by
    show Except.ok (SnowResult.table (monthly_adjusted_heights [1] [(0 : Rat)] 5)) = _
    have hd : ([1] : List Nat).dedup = [1] := by decide
    unfold monthly_adjusted_heights
    rw [hd]
    have hsort : List.insertionSort (· ≤ ·) [1] = [1] := rfl
    rw [hsort]
    have hvals : (([1].zip [(0 : Rat)]).filterMap
        (fun p => if p.1 = 1 then some p.2 else none)) = [0] := by simp
    simp only [List.map_cons, List.map_nil, hvals]
    norm_num
  exact ⟨(C10_snow_keyerror ⟨[1], none⟩ 5).1 rfl,
    (C10_snow_keyerror ⟨[1], some [none]⟩ 5).2 (SnowResult.table [(1, 5)]) hcalc⟩

end SolarPredictive
